import Mathlib

/-!
Shallow embedding of the PSMRI/ubi-verification-sdk credential-verification
dispatcher: the issuer registry (`src/config/issuers.js`), the verifier
factory (`VerifierFactory.getVerifier`), the online `JharSevaVerifier`
(expiry check, response translation) and the offline `SignatureVerifier`
stub. Strings are modelled as `List Char`; JavaScript `String.replace`
with a string pattern removes only the first occurrence, which is
modelled exactly.
-/

/-- Character list of a string literal. -/
def toL (s : String) : List Char := s.data

/-- Model of JavaScript `toLowerCase()` on ASCII strings. -/
def lowerL (s : List Char) : List Char := s.map Char.toLower

/-- Boolean prefix test on character lists. -/
def isPrefixL : List Char → List Char → Bool
  | [], _ => true
  | _ :: _, [] => false
  | a :: ps, c :: cs => a == c && isPrefixL ps cs

/-- Boolean substring test: `pat` occurs somewhere in `s`. -/
def containsSub : List Char → List Char → Bool
  | [], pat => isPrefixL pat []
  | c :: rest, pat => isPrefixL pat (c :: rest) || containsSub rest pat

/-- Model of JavaScript `s.replace(pat, "")` with a string pattern:
removes the first occurrence of `pat` from `s` (or leaves `s` unchanged
when `pat` does not occur). -/
def jsRemoveFirst : List Char → List Char → List Char
  | [], _ => []
  | c :: rest, pat =>
    if isPrefixL pat (c :: rest) then List.drop pat.length (c :: rest)
    else c :: jsRemoveFirst rest pat

/-- Boolean suffix test, modelling JavaScript `s.endsWith(pat)`. -/
def endsWithL (s pat : List Char) : Bool := isPrefixL pat.reverse s.reverse

/-- Model of Node `path.basename(f, ext)` for names without directory
separators: strips `ext` when it is a proper suffix of `f`. -/
def jsBasename (f ext : List Char) : List Char :=
  if endsWithL f ext && decide (ext.length < f.length) then
    f.take (f.length - ext.length)
  else f

/-- Model of `s.replace(/pat$/i, "")` for a lowercase pattern `pat`:
case-insensitively strips `pat` from the end of `s`. -/
def stripSuffixCI (s pat : List Char) : List Char :=
  if endsWithL (lowerL s) (lowerL pat) then s.take (s.length - pat.length)
  else s

/-- Model of `s.replace(/pat$/, "")`: case-sensitively strips `pat` from
the end of `s`. -/
def stripSuffixCS (s pat : List Char) : List Char :=
  if endsWithL s pat then s.take (s.length - pat.length) else s

/-- Model of `/^[a-zA-Z]+$/.test(s)`. -/
def isAlphaStr (s : List Char) : Bool :=
  !s.isEmpty && s.all (fun c => ('a' ≤ c && c ≤ 'z') || ('A' ≤ c && c ≤ 'Z'))

/-- Embeds `verifierNameToIssuerId` from `src/config/issuers.js`:
`fileName.replace(".js", "").replace("Verifier", "").toLowerCase()`. -/
def verifierNameToIssuerId (fileName : List Char) : List Char :=
  let name := jsRemoveFirst (jsRemoveFirst fileName (toL ".js")) (toL "Verifier")
  lowerL name

/-- Embeds `verifierNameToDisplayName` from `src/config/issuers.js`:
`fileName.replace(".js", "").replace("Verifier", "")`. -/
def verifierNameToDisplayName (fileName : List Char) : List Char :=
  jsRemoveFirst (jsRemoveFirst fileName (toL ".js")) (toL "Verifier")

/-- Spec-side id derivation, for comparison with the code: the lowercase
of the file name with the terminal `"Verifier.js"` suffix removed. -/
def specSuffixStrippedId (fileName : List Char) : List Char :=
  lowerL (fileName.take (fileName.length - (toL "Verifier.js").length))

/-- Issuer entry type tag, from the `type` field of registry entries. -/
inductive IssuerType
  | online
  | offline
deriving DecidableEq

/-- Catalog entry built by the registry (`issuers.push({...})`). -/
structure Issuer where
  id : List Char
  name : List Char
  title : List Char
  type : IssuerType
  description : List Char
deriving DecidableEq

/-- Environment view of one file in a verifier directory:
its name, the title returned by `getTitle()` when `new VerifierClass()`
succeeds (`none` when instantiation throws), and the `_title` constant
the fallback regex scan extracts from the file text (`none` when the
file is unreadable or has no such constant). -/
structure VerifierFile where
  fname : List Char
  construct : Option (List Char)
  extractedTitle : Option (List Char)
deriving DecidableEq

/-- Loop body of `discoverOnlineVerifiers` in `src/config/issuers.js`
for a file that passed the `endsWith("Verifier.js")` filter: the try
branch instantiates the verifier, the catch branch falls back to the
extracted `_title` constant or the filename-derived title. -/
def onlineEntryOf (f : VerifierFile) : Issuer :=
  match f.construct with
  | some title =>
    let id := verifierNameToIssuerId f.fname
    let filenameDerivedName := verifierNameToDisplayName f.fname
    let filenameDerivedTitle := jsBasename f.fname (toL ".js")
    let displayName := if title ≠ filenameDerivedTitle then title else filenameDerivedName
    { id := id, name := displayName, title := title, type := .online,
      description := title ++ toL " credential verification" }
  | none =>
    let id := verifierNameToIssuerId f.fname
    let filenameDerivedName := verifierNameToDisplayName f.fname
    let filenameDerivedTitle := jsBasename f.fname (toL ".js")
    let title := f.extractedTitle.getD filenameDerivedTitle
    let displayName := if title ≠ filenameDerivedTitle then title else filenameDerivedName
    { id := id, name := displayName, title := title, type := .online,
      description := title ++ toL " credential verification" }

/-- Loop body of `discoverOfflineVerifiers` in `src/config/issuers.js`:
both the try branch and the catch branch push `id: displayName.toLowerCase()`
(unlike the online loop, which pushes `id: verifierNameToIssuerId(file)`). -/
def offlineEntryOf (f : VerifierFile) : Issuer :=
  match f.construct with
  | some title =>
    let filenameDerivedName := verifierNameToDisplayName f.fname
    let filenameDerivedTitle := jsBasename f.fname (toL ".js")
    let displayName := if title ≠ filenameDerivedTitle then title else filenameDerivedName
    { id := lowerL displayName, name := displayName, title := displayName, type := .offline,
      description := displayName ++ toL " credential verification" }
  | none =>
    let filenameDerivedName := verifierNameToDisplayName f.fname
    let filenameDerivedTitle := jsBasename f.fname (toL ".js")
    let title := f.extractedTitle.getD filenameDerivedTitle
    let displayName := if title ≠ filenameDerivedTitle then title else filenameDerivedName
    { id := lowerL displayName, name := displayName, title := title, type := .offline,
      description := title ++ toL " credential verification" }

/-- Embeds `discoverOnlineVerifiers`: `none` models `fs.readdirSync`
throwing (caught, logged, empty list returned); otherwise each file
ending in `"Verifier.js"` contributes exactly one pushed entry. -/
def discoverOnlineVerifiers : Option (List VerifierFile) → List Issuer
  | none => []
  | some files =>
    (files.filter (fun f => endsWithL f.fname (toL "Verifier.js"))).map onlineEntryOf

/-- Embeds `discoverOfflineVerifiers`, analogous to the online case. -/
def discoverOfflineVerifiers : Option (List VerifierFile) → List Issuer
  | none => []
  | some files =>
    (files.filter (fun f => endsWithL f.fname (toL "Verifier.js"))).map offlineEntryOf

/-- Config passed to `VerifierFactory.getVerifier`; `none` fields model
absent keys (`const { method = "online", issuerName } = config`). -/
structure VerificationConfig where
  method : Option (List Char)
  issuerName : Option (List Char)
deriving DecidableEq

/-- The value `getVerifier` returns: an instantiated online verifier
class (identified by its class name, i.e. the matched file without the
`.js` extension) or the offline `SignatureVerifier`. -/
inductive Verifier
  | onlineVerifier (className : List Char) (config : VerificationConfig)
  | signatureVerifier (config : VerificationConfig)
deriving DecidableEq

/-- Base-name normalization used in `getVerifier`'s directory scan:
`file.replace(/\.js$/i, "").replace(/verifier$/i, "").toLowerCase()`. -/
def factoryBaseName (file : List Char) : List Char :=
  lowerL (stripSuffixCI (stripSuffixCI file (toL ".js")) (toL "verifier"))

/-- Embeds `VerifierFactory.getVerifier` from
`src/services/verifiers/VerifierInterface.js`. `files` is the listing of
the `online-verifiers` directory. The inner `attempt` value is the try
block; any throw inside it is caught and re-thrown as
`Unknown online verifier: <issuerName>`. -/
def getVerifier (files : List (List Char)) (config : VerificationConfig) :
    Except (List Char) Verifier :=
  let method := config.method.getD (toL "online")
  if method = toL "online" then
    match config.issuerName with
    | none => .error (toL "issuerName is required for online verification")
    | some issuerName =>
      if issuerName = [] then
        .error (toL "issuerName is required for online verification")
      else
        let attempt : Except (List Char) Verifier :=
          if isAlphaStr issuerName then
            let normalizedIssuerName := lowerL issuerName
            match files.find? (fun file => factoryBaseName file = normalizedIssuerName) with
            | none => .error (toL "No verifier file found for issuer: " ++ issuerName)
            | some matchingFile =>
              let className := stripSuffixCS matchingFile (toL ".js")
              .ok (.onlineVerifier className config)
          else
            .error (toL "Invalid verifier name format")
        match attempt with
        | .ok v => .ok v
        | .error _ => .error (toL "Unknown online verifier: " ++ issuerName)
  else if method = toL "offline" then
    .ok (.signatureVerifier config)
  else
    .error (toL "Unknown verification method: " ++ method)

/-- Projection used to compare selector outcomes: the class name of the
online verifier resolved for `issuerName`, if any. -/
def resolvedOnlineClass (files : List (List Char)) (issuerName : List Char) :
    Option (List Char) :=
  match getVerifier files { method := some (toL "online"), issuerName := some issuerName } with
  | .ok (.onlineVerifier className _) => some className
  | _ => none

/-- One entry of the `errors` array of a verification result:
`{ error: <user-facing translation>, raw: <original diagnostic> }`. -/
structure ErrEntry where
  error : List Char
  raw : List Char
deriving DecidableEq

/-- The normalized result every variant's `verify()` returns; `errors`
is `none` when the JavaScript object carries no `errors` key. -/
structure VerificationResult where
  success : Bool
  message : List Char
  errors : Option (List ErrEntry)
deriving DecidableEq

/-- Result of `JharSevaVerifier.checkExpiry`. -/
structure ExpiryCheck where
  isValid : Bool
  error : Option (List Char)
deriving DecidableEq

/-- Value of the credential's expiry field (default name `validUntil`)
as `new Date(...)` sees it: `missing` covers an absent or falsy field
(the check is skipped), `invalidDate` a present value parsing to `NaN`,
and `date t` a value parsing to timestamp `t`. -/
inductive ExpiryFieldVal
  | missing
  | invalidDate
  | date (t : Int)
deriving DecidableEq

/-- Embeds `JharSevaVerifier.checkExpiry`; `now` is the current
timestamp, `credential = none` models a missing credential object. -/
def checkExpiry (now : Int) (credential : Option ExpiryFieldVal) : ExpiryCheck :=
  match credential with
  | none =>
    { isValid := false,
      error := some (toL "Invalid credential structure: missing credential data") }
  | some v =>
    match v with
    | .missing => { isValid := true, error := none }
    | .invalidDate => { isValid := false, error := some (toL "Invalid expiry date format") }
    | .date t =>
      if now > t then
        { isValid := false,
          error := some (toL "The credential has expired and is no longer valid.") }
      else { isValid := true, error := none }

/-- Embeds the static `errorTranslator` dictionary of `JharSevaVerifier`
as a partial lookup from technical phrases to user-friendly text. -/
def errorTranslator (msg : List Char) : Option (List Char) :=
  if msg = toL "Invalid credential" then
    some (toL "The credential format is invalid or incomplete.")
  else if msg = toL "Verification failed" then
    some (toL "The credential could not be verified. Please ensure it is valid and not expired.")
  else if msg = toL "Service unavailable" then
    some (toL "The JharSeva verification service is temporarily unavailable. Please try again later.")
  else if msg = toL "Invalid signature" then
    some (toL "The credential\x27s signature is invalid or has been tampered with.")
  else if msg = toL "Expired credential" then
    some (toL "The credential has expired and is no longer valid.")
  else none

/-- Embeds the `pushError` closure of `translateResponse`; the argument
is the error object's `message` field (`none` when absent, and the
empty string is falsy for the `raw` fallback). -/
def pushError (msg : Option (List Char)) : ErrEntry :=
  { error := (match msg with
      | some m => errorTranslator m
      | none => none).getD (toL "An unknown error occurred during verification.")
    raw := match msg with
      | some m => if m = [] then toL "An unknown error occurred" else m
      | none => toL "An unknown error occurred" }

/-- The `error` field of the remote response body (`response.data.error`):
absent/falsy, a single error object carrying an optional `message`, or
an array of such objects. -/
inductive ErrField
  | absent
  | single (msg : Option (List Char))
  | array (msgs : List (Option (List Char)))
deriving DecidableEq

/-- Embeds `JharSevaVerifier.translateResponse`. -/
def translateResponse (error : ErrField) : VerificationResult :=
  let formattedErrors : List ErrEntry :=
    match error with
    | .absent => []
    | .single m => [pushError m]
    | .array msgs => if msgs.length > 0 then msgs.map pushError else []
  if formattedErrors.length > 0 then
    { success := false, message := toL "Credential verification failed.",
      errors := some formattedErrors }
  else
    { success := true, message := toL "Credential verified successfully.",
      errors := none }

/-- Embeds `JharSevaVerifier.verify`. `net` is the outcome of the
`axios.post` call: `.ok response` a response whose `data.error` field is
given, `.error msg` a thrown transport error with message `msg`. The
returned Bool records whether the network call was attempted. The
`getD` default in the expiry branch is unreachable: `checkExpiry`
always sets `error` on its invalid branches. -/
def jharVerify (now : Int) (credential : Option ExpiryFieldVal)
    (net : Except (List Char) ErrField) : VerificationResult × Bool :=
  let expiryCheck := checkExpiry now credential
  if expiryCheck.isValid = false then
    ({ success := false, message := toL "Credential verification failed.",
       errors := some [{ error := expiryCheck.error.getD (toL "undefined"),
                         raw := toL "Credential expiration check failed" }] }, false)
  else
    match net with
    | .ok response => (translateResponse response, true)
    | .error emsg =>
      ({ success := false, message := toL "Verification API error",
         errors := some [{ error := emsg, raw := emsg }] }, true)

/-- Embeds the stubbed `SignatureVerifier.verify` from the offline
verifier: `isValid` is the hard-coded `false`, the credential argument
is ignored. -/
def signatureVerify (_credential : Option ExpiryFieldVal) : VerificationResult :=
  let isValid := false
  if isValid then
    { success := true, message := toL "Credential verified using signature.",
      errors := none }
  else
    { success := false, message := toL "Credential verification using signature failed.",
      errors := none }

/-- Erases the config carried inside a selected verifier, for comparing
selection outcomes of configs that differ only in fields the selection
ignores. -/
def eraseConfig : Verifier → Verifier
  | .onlineVerifier className _ => .onlineVerifier className { method := none, issuerName := none }
  | .signatureVerifier _ => .signatureVerifier { method := none, issuerName := none }

/-! Helper lemmas about the string model. -/

/-- Prefix test characterized by `List.take`. -/
theorem isPrefixL_iff_take (p : List Char) : ∀ s : List Char,
    isPrefixL p s = true ↔ s.take p.length = p := by
  induction p with
  | nil => intro s; simp [isPrefixL]
  | cons a ps ih =>
    intro s
    cases s with
    | nil => simp [isPrefixL]
    | cons c cs =>
      simp [isPrefixL, List.length_cons, List.take_succ_cons, ih,
        Bool.and_eq_true, beq_iff_eq, List.cons.injEq]
      exact fun _ => eq_comm

/-- A list is a prefix of itself followed by anything. -/
theorem isPrefixL_self_append (p y : List Char) : isPrefixL p (p ++ y) = true := by
  rw [isPrefixL_iff_take]; exact List.take_left' rfl

/-- A prefix of `u ++ v` no longer than `u` is a prefix of `u`. -/
theorem isPrefixL_of_append_right (p u v : List Char) (hl : p.length ≤ u.length)
    (h : isPrefixL p (u ++ v) = true) : isPrefixL p u = true := by
  rw [isPrefixL_iff_take] at h ⊢
  have htl : u = (u ++ v).take u.length := (List.take_left' rfl).symm
  calc u.take p.length = ((u ++ v).take u.length).take p.length := by rw [← htl]
    _ = (u ++ v).take (min p.length u.length) := by rw [List.take_take]
    _ = (u ++ v).take p.length := by rw [min_eq_left hl]
    _ = p := h

/-- When the occurrence of `pat` starting at position `x.length` is the
first one (no occurrence starts earlier, which is exactly: `pat` does
not occur in `x ++ pat.dropLast`), `jsRemoveFirst` removes it. -/
theorem jsRemoveFirst_first_occurrence (pat : List Char) (hp : pat ≠ []) :
    ∀ x y : List Char, containsSub (x ++ pat.dropLast) pat = false →
      jsRemoveFirst (x ++ (pat ++ y)) pat = x ++ y := by
  intro x
  induction x with
  | nil =>
    intro y _
    obtain ⟨a, ps, rfl⟩ : ∃ a ps, pat = a :: ps := by
      cases pat with
      | nil => exact absurd rfl hp
      | cons a ps => exact ⟨a, ps, rfl⟩
    show jsRemoveFirst (a :: (ps ++ y)) (a :: ps) = y
    rw [jsRemoveFirst]
    have hcond : isPrefixL (a :: ps) (a :: (ps ++ y)) = true :=
      isPrefixL_self_append (a :: ps) y
    rw [if_pos hcond]
    exact List.drop_left (a :: ps) y
  | cons c x' ih =>
    intro y h
    rw [List.cons_append] at h ⊢
    rw [containsSub, Bool.or_eq_false_iff] at h
    obtain ⟨h1, h2⟩ := h
    rw [jsRemoveFirst]
    have hne : isPrefixL pat (c :: (x' ++ (pat ++ y))) = false := by
      by_contra hcon
      rw [Bool.not_eq_false] at hcon
      have hfull : c :: (x' ++ (pat ++ y))
          = (c :: (x' ++ pat.dropLast)) ++ ([pat.getLast hp] ++ y) := by
        conv_lhs => rw [← List.dropLast_append_getLast hp]
        simp [List.append_assoc]
      rw [hfull] at hcon
      have hlen : pat.length ≤ (c :: (x' ++ pat.dropLast)).length := by
        simp [List.length_cons, List.length_append, List.length_dropLast]
        omega
      have hpre := isPrefixL_of_append_right pat _ _ hlen hcon
      rw [h1] at hpre
      exact Bool.false_ne_true hpre
    rw [if_neg (by rw [hne]; exact Bool.false_ne_true)]
    rw [ih y h2, List.cons_append]

/-! Claim C1. -/

/-- C1 counterexample: the registered name `"A.jsBVerifier.js"` ends in
`"Verifier.js"` but contains `".js"` as an interior substring, and the
code's id (first-occurrence removal, yielding `"ab.js"`) differs from
the claimed suffix-and-extension-stripped lowercase (`"a.jsb"`). -/
theorem c1_interior_substring_counterexample :
    endsWithL (toL "A.jsBVerifier.js") (toL "Verifier.js") = true ∧
    verifierNameToIssuerId (toL "A.jsBVerifier.js") = toL "ab.js" ∧
    specSuffixStrippedId (toL "A.jsBVerifier.js") = toL "a.jsb" ∧
    verifierNameToIssuerId (toL "A.jsBVerifier.js") ≠
      specSuffixStrippedId (toL "A.jsBVerifier.js") := by
  refine ⟨by decide, by decide, by decide, by decide⟩

/-- C1 (amended): for a registered verifier file name `b ++ "Verifier.js"`
in which `".js"` occurs only as the final extension and `"Verifier"`
occurs only as the final suffix (no interior occurrence — the two
`containsSub` hypotheses say exactly that no occurrence starts before
the terminal one), the derived issuer id equals the lowercase of the
name with the `"Verifier"` suffix and `".js"` extension removed. For
names with an interior `".js"` or `"Verifier"` the code instead removes
the first occurrences. -/
theorem c1_id_strips_clean_terminal_suffix (b : List Char)
    (h1 : containsSub (b ++ toL "Verifier.j") (toL ".js") = false)
    (h2 : containsSub (b ++ toL "Verifie") (toL "Verifier") = false) :
    verifierNameToIssuerId (b ++ toL "Verifier.js") = lowerL b ∧
    specSuffixStrippedId (b ++ toL "Verifier.js") = lowerL b := by
  constructor
  · have hsplit : b ++ toL "Verifier.js" = (b ++ toL "Verifier") ++ (toL ".js" ++ []) := by
      have hsfx : toL "Verifier.js" = toL "Verifier" ++ toL ".js" := by decide
      simp [hsfx, List.append_assoc]
    have hc1 : containsSub ((b ++ toL "Verifier") ++ (toL ".js").dropLast)
        (toL ".js") = false := by
      have hdp : (toL ".js").dropLast = toL ".j" := by decide
      have hj : toL "Verifier.j" = toL "Verifier" ++ toL ".j" := by decide
      rw [hdp, List.append_assoc, ← hj]
      exact h1
    have hstep1 : jsRemoveFirst (b ++ toL "Verifier.js") (toL ".js")
        = b ++ toL "Verifier" := by
      rw [hsplit, jsRemoveFirst_first_occurrence (toL ".js") (by decide) _ [] hc1,
        List.append_nil]
    have hc2 : containsSub (b ++ (toL "Verifier").dropLast) (toL "Verifier") = false := by
      have hdp : (toL "Verifier").dropLast = toL "Verifie" := by decide
      rw [hdp]; exact h2
    have hstep2 : jsRemoveFirst (b ++ toL "Verifier") (toL "Verifier") = b := by
      have hsplit2 : b ++ toL "Verifier" = b ++ (toL "Verifier" ++ []) := by
        rw [List.append_nil]
      rw [hsplit2, jsRemoveFirst_first_occurrence (toL "Verifier") (by decide) _ [] hc2,
        List.append_nil]
    rw [verifierNameToIssuerId, hstep1, hstep2]
  · rw [specSuffixStrippedId]
    have hlen : (b ++ toL "Verifier.js").length - (toL "Verifier.js").length
        = b.length := by
      simp [List.length_append]
    rw [hlen, List.take_left' rfl]

/-- C1 witness: the amended theorem applied at the clean name
`"DhiwayVerifier.js"`, whose id is `"dhiway"`. -/
theorem c1_id_strips_clean_terminal_suffix_witness :
    verifierNameToIssuerId (toL "Dhiway" ++ toL "Verifier.js") = lowerL (toL "Dhiway") ∧
    specSuffixStrippedId (toL "Dhiway" ++ toL "Verifier.js") = lowerL (toL "Dhiway") :=
  c1_id_strips_clean_terminal_suffix (toL "Dhiway") (by decide) (by decide)

/-! Claim C2. -/

/-- C2: every offline catalog entry's id is the lowercase of its
resolved display name (in both the instantiation and the fallback
branch), every online entry's id is derived from the file name alone via
`verifierNameToIssuerId`, and an offline variant whose custom title `t`
differs from the filename-derived title gets id `lowercase t` while the
online derivation ignores the title. -/
theorem c2_offline_id_from_display_name :
    (∀ f : VerifierFile, (offlineEntryOf f).id = lowerL (offlineEntryOf f).name) ∧
    (∀ f : VerifierFile, (onlineEntryOf f).id = verifierNameToIssuerId f.fname) ∧
    (∀ (f : VerifierFile) (t : List Char), f.construct = some t →
      t ≠ jsBasename f.fname (toL ".js") →
      (offlineEntryOf f).id = lowerL t ∧
      (onlineEntryOf f).id = verifierNameToIssuerId f.fname) := by
  refine ⟨?_, ?_, ?_⟩
  · intro f
    rcases f with ⟨fn, co, ex⟩
    cases co <;> rfl
  · intro f
    rcases f with ⟨fn, co, ex⟩
    cases co <;> rfl
  · intro f t hc hne
    rcases f with ⟨fn, co, ex⟩
    cases co with
    | none => cases hc
    | some t0 =>
      cases hc
      constructor
      · show lowerL (if t ≠ jsBasename fn (toL ".js") then t
          else verifierNameToDisplayName fn) = lowerL t
        rw [if_pos hne]
      · rfl

/-- C2 witness: the offline `SignatureVerifier.js`, whose constructor
sets the custom title `"sunbird-rc"`, gets catalog id `"sunbird-rc"`
(the lowercased custom title), not the lowercased filename base. -/
theorem c2_offline_id_from_display_name_witness :
    (offlineEntryOf ⟨toL "SignatureVerifier.js", some (toL "sunbird-rc"), none⟩).id
        = lowerL (toL "sunbird-rc") ∧
    (onlineEntryOf ⟨toL "SignatureVerifier.js", some (toL "sunbird-rc"), none⟩).id
        = verifierNameToIssuerId (toL "SignatureVerifier.js") :=
  c2_offline_id_from_display_name.2.2
    ⟨toL "SignatureVerifier.js", some (toL "sunbird-rc"), none⟩
    (toL "sunbird-rc") rfl (by decide)

/-- Shared shape lemma: for a config whose (defaulted) method is
`"online"` with a non-empty, well-formed issuer name, `getVerifier` is
determined by the directory scan, and the chosen verifier carries the
caller's config. -/
theorem getVerifier_online_shape (files : List (List Char)) (cfg : VerificationConfig)
    (hm : cfg.method.getD (toL "online") = toL "online") (n : List Char)
    (hn : cfg.issuerName = some n) (hne : n ≠ []) (ha : isAlphaStr n = true) :
    getVerifier files cfg =
      match files.find? (fun file => factoryBaseName file = lowerL n) with
      | none => .error (toL "Unknown online verifier: " ++ n)
      | some mf => .ok (.onlineVerifier (stripSuffixCS mf (toL ".js")) cfg) := by
  simp only [getVerifier, hm, hn]
  rw [if_pos trivial, if_neg hne, if_pos ha]
  cases hf : files.find? (fun file => factoryBaseName file = lowerL n) with
  | none => simp [hf]
  | some mf => simp [hf]

/-- Shared shape lemma: for a config whose (defaulted) method is
`"online"` with a non-empty issuer name failing the `^[a-zA-Z]+$` test,
the internal validation throw is re-surfaced by the catch-all as the
unknown-verifier error. -/
theorem getVerifier_online_malformed (files : List (List Char)) (cfg : VerificationConfig)
    (hm : cfg.method.getD (toL "online") = toL "online") (n : List Char)
    (hn : cfg.issuerName = some n) (hne : n ≠ []) (ha : isAlphaStr n = false) :
    getVerifier files cfg = .error (toL "Unknown online verifier: " ++ n) := by
  simp only [getVerifier, hm, hn]
  rw [if_pos trivial, if_neg hne]
  simp [ha]

/-! Claim C3. -/

/-- C3 counterexample: for the malformed issuer name `"abc123"` the
internal `"Invalid verifier name format"` throw is caught by the
surrounding try/catch and re-surfaced as `Unknown online verifier:
abc123` — the very same error shape an unsupported issuer (`"zz"`)
gets — so the validation failure is not surfaced distinctly. -/
theorem c3_validation_not_distinct_counterexample :
    getVerifier [toL "JharSevaVerifier.js"]
        { method := some (toL "online"), issuerName := some (toL "abc123") }
      = .error (toL "Unknown online verifier: abc123") ∧
    getVerifier [toL "JharSevaVerifier.js"]
        { method := some (toL "online"), issuerName := some (toL "zz") }
      = .error (toL "Unknown online verifier: zz") ∧
    toL "Unknown online verifier: abc123" ≠ toL "Invalid verifier name format" := by
  refine ⟨by rfl, by rfl, by decide⟩

/-- C3 (amended): for every config with method `"online"` and a
non-empty `issuerName` not matching `^[a-zA-Z]+$`, `getVerifier` fails —
but the explicit validation error is swallowed by the catch-all and
re-surfaced as `Unknown online verifier: <issuerName>`, the same error
an unsupported issuer gets; only a missing or empty `issuerName` gets a
distinct error. -/
theorem c3_malformed_name_yields_unknown_error (files : List (List Char))
    (n : List Char) (hne : n ≠ []) (hna : isAlphaStr n = false) :
    getVerifier files { method := some (toL "online"), issuerName := some n }
      = .error (toL "Unknown online verifier: " ++ n) :=
  getVerifier_online_malformed files
    { method := some (toL "online"), issuerName := some n } rfl n rfl hne hna

/-- C3 witness: the amended theorem applied at issuer name `"abc123"`. -/
theorem c3_malformed_name_yields_unknown_error_witness :
    getVerifier [] { method := some (toL "online"), issuerName := some (toL "abc123") }
      = .error (toL "Unknown online verifier: " ++ toL "abc123") :=
  c3_malformed_name_yields_unknown_error [] (toL "abc123") (by decide) (by decide)

/-! Claim C5. -/

/-- For a well-formed (alphabetic) issuer name, the selector outcome is
determined by the case-insensitive directory scan: the first file whose
normalized base name equals the lowercased issuer name. -/
theorem resolvedOnlineClass_of_alpha (files : List (List Char)) (n : List Char)
    (h : isAlphaStr n = true) :
    resolvedOnlineClass files n =
      (files.find? (fun file => factoryBaseName file = lowerL n)).map
        (fun f => stripSuffixCS f (toL ".js")) := by
  have hne : n ≠ [] := by
    intro he
    subst he
    simp [isAlphaStr] at h
  rw [resolvedOnlineClass]
  simp only [getVerifier, Option.getD_some, if_pos rfl]
  rw [if_neg hne, if_pos h]
  cases hf : files.find? (fun file => decide (factoryBaseName file = lowerL n)) with
  | none => simp [hf]
  | some mf => simp [hf]

/-- C5: selector lookup is case-insensitive — two alphabetic issuer
names with the same lowercase (e.g. `"acme"`, `"Acme"`, `"ACME"`)
resolve to the same online variant. -/
theorem c5_case_insensitive_lookup (files : List (List Char)) (n1 n2 : List Char)
    (h1 : isAlphaStr n1 = true) (h2 : isAlphaStr n2 = true)
    (h : lowerL n1 = lowerL n2) :
    resolvedOnlineClass files n1 = resolvedOnlineClass files n2 := by
  rw [resolvedOnlineClass_of_alpha files n1 h1, resolvedOnlineClass_of_alpha files n2 h2, h]

/-- C5 witness: `"acme"` and `"ACME"` resolve to the same variant in a
directory containing `AcmeVerifier.js` (namely that file's class). -/
theorem c5_case_insensitive_lookup_witness :
    resolvedOnlineClass [toL "AcmeVerifier.js"] (toL "acme")
      = resolvedOnlineClass [toL "AcmeVerifier.js"] (toL "ACME") ∧
    resolvedOnlineClass [toL "AcmeVerifier.js"] (toL "acme") = some (toL "AcmeVerifier") :=
  ⟨c5_case_insensitive_lookup [toL "AcmeVerifier.js"] (toL "acme") (toL "ACME")
    (by decide) (by decide) (by decide), by rfl⟩

/-! Claim C4. -/

/-- Unfolding of `jharVerify` (the `let` is zeta-reduced). -/
theorem jharVerify_eq (now : Int) (cred : Option ExpiryFieldVal)
    (net : Except (List Char) ErrField) :
    jharVerify now cred net =
      if (checkExpiry now cred).isValid = false then
        ({ success := false, message := toL "Credential verification failed.",
           errors := some [{ error := (checkExpiry now cred).error.getD (toL "undefined"),
                             raw := toL "Credential expiration check failed" }] }, false)
      else
        (match net with
         | .ok response => (translateResponse response, true)
         | .error emsg =>
           ({ success := false, message := toL "Verification API error",
              errors := some [{ error := emsg, raw := emsg }] }, true)) := rfl

/-- Shape of `translateResponse` results: `errors` is attached exactly
on the non-empty-error paths. -/
theorem translateResponse_errors (response : ErrField) :
    ((translateResponse response).success = true →
      (translateResponse response).errors = none) ∧
    (∀ es, (translateResponse response).errors = some es →
      (translateResponse response).success = false ∧ es ≠ []) ∧
    ((translateResponse response).success = false →
      ∃ es, (translateResponse response).errors = some es ∧ es ≠ []) := by
  rcases response with _ | m | msgs
  · refine ⟨fun _ => rfl, ?_, ?_⟩
    · intro es hes
      cases hes
    · intro h
      cases h
  · refine ⟨?_, ?_, ?_⟩
    · intro h
      cases h
    · intro es hes
      refine ⟨rfl, ?_⟩
      injection hes with hes
      rw [← hes]
      exact List.cons_ne_nil _ _
    · intro _
      exact ⟨_, rfl, List.cons_ne_nil _ _⟩
  · cases msgs with
    | nil =>
      refine ⟨fun _ => rfl, ?_, ?_⟩
      · intro es hes
        cases hes
      · intro h
        cases h
    | cons m0 mrest =>
      have hred : translateResponse (.array (m0 :: mrest)) =
          { success := false, message := toL "Credential verification failed.",
            errors := some (pushError m0 :: List.map pushError mrest) } := by
        rw [translateResponse.eq_def]
        simp
      rw [hred]
      refine ⟨?_, ?_, ?_⟩
      · intro h
        cases h
      · intro es hes
        refine ⟨rfl, ?_⟩
        injection hes with hes
        rw [← hes]
        exact List.cons_ne_nil _ _
      · intro _
        exact ⟨_, rfl, List.cons_ne_nil _ _⟩

/-- C4: for every result the online variant's `verify()` can produce,
an `errors` field is present only with a non-empty list and only on
failure, a success result never carries `errors`, and every failing
online path (all of which produce error entries) carries a non-empty
`errors` list; the offline signature stub's always-failing result
carries no `errors` (its fixed-failure path produces none), consistent
with the invariant. -/
theorem c4_errors_iff_failure :
    (∀ (now : Int) (cred : Option ExpiryFieldVal) (net : Except (List Char) ErrField),
      ((jharVerify now cred net).1.success = true →
        (jharVerify now cred net).1.errors = none) ∧
      (∀ es, (jharVerify now cred net).1.errors = some es →
        (jharVerify now cred net).1.success = false ∧ es ≠ []) ∧
      ((jharVerify now cred net).1.success = false →
        ∃ es, (jharVerify now cred net).1.errors = some es ∧ es ≠ [])) ∧
    (∀ cred : Option ExpiryFieldVal,
      (signatureVerify cred).success = false ∧ (signatureVerify cred).errors = none) := by
  constructor
  · intro now cred net
    rw [jharVerify_eq]
    by_cases hv : (checkExpiry now cred).isValid = false
    · rw [if_pos hv]
      refine ⟨?_, ?_, ?_⟩
      · intro h
        cases h
      · intro es hes
        refine ⟨rfl, ?_⟩
        injection hes with hes
        rw [← hes]
        exact List.cons_ne_nil _ _
      · intro _
        exact ⟨_, rfl, List.cons_ne_nil _ _⟩
    · rw [if_neg hv]
      cases net with
      | error emsg =>
        refine ⟨?_, ?_, ?_⟩
        · intro h
          cases h
        · intro es hes
          refine ⟨rfl, ?_⟩
          injection hes with hes
          rw [← hes]
          exact List.cons_ne_nil _ _
        · intro _
          exact ⟨_, rfl, List.cons_ne_nil _ _⟩
      | ok response => exact translateResponse_errors response
  · intro cred
    exact ⟨rfl, rfl⟩

/-- C4 witness: a pure-success run of the online variant (no expiry
field, remote response without error field) carries no `errors`, and
the stub's result is an errorless failure. -/
theorem c4_errors_iff_failure_witness :
    (jharVerify 0 (some .missing) (.ok .absent)).1.errors = none ∧
    (signatureVerify none).success = false ∧ (signatureVerify none).errors = none :=
  ⟨(c4_errors_iff_failure.1 0 (some .missing) (.ok .absent)).1 rfl,
   c4_errors_iff_failure.2 none⟩

/-! Claim C6. -/

/-- C6: a credential whose expiry field parses to a timestamp in the
past makes `verify()` return a failure with the expiry-specific error
without attempting the network call, and a credential lacking the
expiry field skips the check and proceeds to the remote call (whose
translated or transport-error result is returned, with the call
attempted). -/
theorem c6_expiry_short_circuit :
    (∀ (now t : Int) (net : Except (List Char) ErrField), t < now →
      jharVerify now (some (.date t)) net =
        ({ success := false, message := toL "Credential verification failed.",
           errors := some [{ error := toL "The credential has expired and is no longer valid.",
                             raw := toL "Credential expiration check failed" }] }, false)) ∧
    (∀ (now : Int) (net : Except (List Char) ErrField),
      jharVerify now (some .missing) net =
        ((match net with
          | .ok response => translateResponse response
          | .error emsg =>
            { success := false, message := toL "Verification API error",
              errors := some [{ error := emsg, raw := emsg }] }), true)) := by
  constructor
  · intro now t net ht
    rw [jharVerify_eq]
    have hc : checkExpiry now (some (.date t)) =
        { isValid := false,
          error := some (toL "The credential has expired and is no longer valid.") } := by
      rw [checkExpiry.eq_def]
      simp only [if_pos (show now > t from ht)]
    rw [hc]
    rfl
  · intro now net
    rw [jharVerify_eq]
    have hc : checkExpiry now (some .missing) = { isValid := true, error := none } := rfl
    rw [hc]
    cases net <;> rfl

/-- C6 witness: with current time 1, a credential expiring at time 0 is
rejected without a network call, and one with no expiry field reaches
the remote call. -/
theorem c6_expiry_short_circuit_witness :
    jharVerify 1 (some (.date 0)) (.ok .absent) =
      ({ success := false, message := toL "Credential verification failed.",
         errors := some [{ error := toL "The credential has expired and is no longer valid.",
                           raw := toL "Credential expiration check failed" }] }, false) ∧
    jharVerify 1 (some .missing) (.ok .absent) = (translateResponse .absent, true) :=
  ⟨c6_expiry_short_circuit.1 1 0 (.ok .absent) (by decide),
   c6_expiry_short_circuit.2 1 (.ok .absent)⟩

/-! Claim C7. -/

/-- C7: a remote response with no error field translates to exactly
`success: true` with the fixed success message and no `errors` key. -/
theorem c7_success_round_trip :
    translateResponse .absent =
      { success := true, message := toL "Credential verified successfully.",
        errors := none } := rfl

/-! Claim C8. -/

/-- C8: a remote response with two error entries (each carrying a
non-empty message phrase) translates to `errors` of length 2, where each
entry's `error` is the dictionary translation of its phrase (the generic
unknown-error message when the phrase is not in the dictionary) and each
entry's `raw` preserves the original phrase. -/
theorem c8_two_error_entries (m1 m2 : List Char) (h1 : m1 ≠ []) (h2 : m2 ≠ []) :
    translateResponse (.array [some m1, some m2]) =
      { success := false, message := toL "Credential verification failed.",
        errors := some
          [{ error := (errorTranslator m1).getD
               (toL "An unknown error occurred during verification."), raw := m1 },
           { error := (errorTranslator m2).getD
               (toL "An unknown error occurred during verification."), raw := m2 }] } := by
  have e1 : pushError (some m1) =
      { error := (errorTranslator m1).getD
          (toL "An unknown error occurred during verification."), raw := m1 } := by
    simp only [pushError]
    rw [if_neg h1]
  have e2 : pushError (some m2) =
      { error := (errorTranslator m2).getD
          (toL "An unknown error occurred during verification."), raw := m2 } := by
    simp only [pushError]
    rw [if_neg h2]
  have hred : translateResponse (.array [some m1, some m2]) =
      { success := false, message := toL "Credential verification failed.",
        errors := some [pushError (some m1), pushError (some m2)] } := by
    rw [translateResponse.eq_def]
    simp
  rw [hred, e1, e2]

/-- C8 witness: one recognized phrase (`"Invalid credential"`) and one
unrecognized phrase (`"Glitch"`); both raw phrases are preserved. -/
theorem c8_two_error_entries_witness :
    translateResponse (.array [some (toL "Invalid credential"), some (toL "Glitch")]) =
      { success := false, message := toL "Credential verification failed.",
        errors := some
          [{ error := (errorTranslator (toL "Invalid credential")).getD
               (toL "An unknown error occurred during verification."),
             raw := toL "Invalid credential" },
           { error := (errorTranslator (toL "Glitch")).getD
               (toL "An unknown error occurred during verification."),
             raw := toL "Glitch" }] } :=
  c8_two_error_entries (toL "Invalid credential") (toL "Glitch") (by decide) (by decide)

/-! Claim C9. -/

/-- C9: registry discovery never aborts: a failed directory enumeration
yields the empty list for that type; a successful enumeration records
exactly one entry per matching file, whether or not that variant
constructs; and when instantiation fails the entry's title falls back to
the extracted `_title` constant when one is found, else to the
filename-derived title. -/
theorem c9_discovery_never_aborts :
    discoverOnlineVerifiers none = [] ∧
    discoverOfflineVerifiers none = [] ∧
    (∀ files : List VerifierFile,
      (discoverOnlineVerifiers (some files)).length
          = (files.filter (fun f => endsWithL f.fname (toL "Verifier.js"))).length ∧
      (discoverOfflineVerifiers (some files)).length
          = (files.filter (fun f => endsWithL f.fname (toL "Verifier.js"))).length) ∧
    (∀ f : VerifierFile, f.construct = none →
      (onlineEntryOf f).title
          = f.extractedTitle.getD (jsBasename f.fname (toL ".js")) ∧
      (offlineEntryOf f).title
          = f.extractedTitle.getD (jsBasename f.fname (toL ".js"))) := by
  refine ⟨rfl, rfl, ?_, ?_⟩
  · intro files
    constructor
    · rw [discoverOnlineVerifiers]
      exact List.length_map _ _
    · rw [discoverOfflineVerifiers]
      exact List.length_map _ _
  · intro f hc
    rcases f with ⟨fn, co, ex⟩
    cases hc
    exact ⟨rfl, rfl⟩

/-- C9 witness: a variant that fails to construct but whose source text
yields the `_title` constant `"Broken Co"` still records an entry with
that title. -/
theorem c9_discovery_never_aborts_witness :
    (onlineEntryOf ⟨toL "BrokenVerifier.js", none, some (toL "Broken Co")⟩).title
        = (some (toL "Broken Co")).getD (jsBasename (toL "BrokenVerifier.js") (toL ".js")) ∧
    (offlineEntryOf ⟨toL "BrokenVerifier.js", none, some (toL "Broken Co")⟩).title
        = (some (toL "Broken Co")).getD (jsBasename (toL "BrokenVerifier.js") (toL ".js")) :=
  c9_discovery_never_aborts.2.2.2 ⟨toL "BrokenVerifier.js", none, some (toL "Broken Co")⟩ rfl

/-! Claim C10. -/

/-- C10: a config omitting the method key is treated as online:
without an issuerName the required-issuerName error is raised (not an
unknown-method error), and with an issuerName the outcome is identical
to an explicit `method: "online"` config. -/
theorem c10_method_defaults_to_online :
    (∀ files : List (List Char),
      getVerifier files { method := none, issuerName := none }
        = .error (toL "issuerName is required for online verification")) ∧
    (∀ (files : List (List Char)) (n : List Char),
      (getVerifier files { method := none, issuerName := some n }).map eraseConfig
        = (getVerifier files
            { method := some (toL "online"), issuerName := some n }).map eraseConfig) := by
  refine ⟨fun _ => rfl, fun files n => ?_⟩
  by_cases hne : n = []
  · subst hne
    rfl
  · by_cases ha : isAlphaStr n = true
    · rw [getVerifier_online_shape files
            { method := none, issuerName := some n } rfl n rfl hne ha,
          getVerifier_online_shape files
            { method := some (toL "online"), issuerName := some n } rfl n rfl hne ha]
      cases files.find? (fun file => factoryBaseName file = lowerL n) <;> rfl
    · rw [Bool.not_eq_true] at ha
      rw [getVerifier_online_malformed files
            { method := none, issuerName := some n } rfl n rfl hne ha,
          getVerifier_online_malformed files
            { method := some (toL "online"), issuerName := some n } rfl n rfl hne ha]
